import Mathlib

/-!
Verification of the classroom ("aula") management slice of the
SchedulePlanning backend.

The development shallowly embeds the classroom data model
(`models/aula.py`), the repository layer (`repositories/base.py`,
`repositories/aula_repository.py`) and the service layer
(`services/aula_service.py`).  The SQL database is modelled as an
in-memory list of rows plus an auto-increment counter; SQLAlchemy
queries become list operations.  String comparison in SQL filters is
exact (the `codigo` column uses the default binary collation), so it is
modelled by Lean's `String` equality.  Exceptions raised by the service
become an explicit error type, and each service operation threads the
store state explicitly, returning the (possibly unchanged) store next
to its result.
-/

/-- `models/aula.py`: `TipoAula` enumeration.  The Python enum members
are `TEORIA`, `LABORATORIO`, `SEMINARIO`; the constructors here use the
lowercase spellings that the statistics dictionary keys use. -/
inductive TipoAula where
  | teoria
  | laboratorio
  | seminario
deriving DecidableEq, Repr, BEq

/-- `models/aula.py`: the `Aula` table row.  `id` is the integer
primary key, `codigo` a unique non-null string, `capacidad` a non-null
integer, `tipo` a non-null enum, `ubicacion` a non-null string and
`equipamiento` a nullable string. -/
structure Aula where
  id : Nat
  codigo : String
  capacidad : Int
  tipo : TipoAula
  ubicacion : String
  equipamiento : Option String
deriving DecidableEq, Repr

/-- The database state: the rows of the `aulas` table together with the
next value of the auto-increment primary key. -/
structure Store where
  aulas : List Aula
  nextId : Nat
deriving DecidableEq, Repr

/-- `schemas/aula.py`: `AulaCreate` — all fields required except the
nullable `equipamiento`. -/
structure AulaCreate where
  codigo : String
  capacidad : Int
  tipo : TipoAula
  ubicacion : String
  equipamiento : Option String
deriving DecidableEq, Repr

/-- `schemas/aula.py`: `AulaUpdate` — every field optional.  `none`
models a field absent from the request (pydantic "unset", excluded by
`model_dump(exclude_unset=True)`).  For the nullable `equipamiento`
field, an explicitly supplied `null` is distinct from an absent field,
so it carries a separate set-flag: `equipamiento_set = true` with
`equipamiento = none` is an explicit null, `equipamiento_set = false`
is an absent field. -/
structure AulaUpdate where
  codigo : Option String
  capacidad : Option Int
  tipo : Option TipoAula
  ubicacion : Option String
  equipamiento_set : Bool
  equipamiento : Option String
deriving DecidableEq, Repr

/-- `core/exceptions.py`: the three exception kinds the aula service
raises.  `notFound` is `AulaNotFoundException` (404), `conflict` is
`AulaCodigoExistsException` (409), `validation` is
`ValidationException` (400) carrying its detail message. -/
inductive ApiError where
  | notFound (aula_id : Nat)
  | conflict (codigo : String)
  | validation (detail : String)
deriving DecidableEq, Repr

/-- Python's `str.upper()` as applied to classroom codes by
`AulaService._validate_codigo_format`, modelled character-wise by the
ASCII `Char.toUpper`.  This is exact for ASCII strings; Python's
Unicode `upper()` additionally maps some non-ASCII letters into
`A`–`Z` (for example U+0131 to `I`), so every theorem that relies on
this model carries an explicit ASCII hypothesis. -/
def py_upper (s : String) : String :=
  String.mk (s.data.map Char.toUpper)

namespace AulaRepository

/-- `BaseRepository.get`: `query(Aula).filter(Aula.id == id).first()`. -/
def get (s : Store) (id : Nat) : Option Aula :=
  s.aulas.find? (fun a => decide (a.id = id))

/-- `AulaRepository.get_by_codigo`:
`query(Aula).filter(Aula.codigo == codigo).first()` — an exact string
match under the column's default binary collation. -/
def get_by_codigo (s : Store) (codigo : String) : Option Aula :=
  s.aulas.find? (fun a => decide (a.codigo = codigo))

/-- `BaseRepository.create`: construct the row from the input dict, add
it, commit; the auto-increment key assigns the id. -/
def create (s : Store) (a : AulaCreate) : Aula × Store :=
  let db_obj : Aula :=
    { id := s.nextId
      codigo := a.codigo
      capacidad := a.capacidad
      tipo := a.tipo
      ubicacion := a.ubicacion
      equipamiento := a.equipamiento }
  (db_obj, { aulas := s.aulas ++ [db_obj], nextId := s.nextId + 1 })

/-- The `setattr` loop of `BaseRepository.update` applied to one row:
each field present in `model_dump(exclude_unset=True)` is assigned,
every other field keeps its value. -/
def apply_update (a : Aula) (u : AulaUpdate) : Aula :=
  { a with
    codigo := u.codigo.getD a.codigo
    capacidad := u.capacidad.getD a.capacidad
    tipo := u.tipo.getD a.tipo
    ubicacion := u.ubicacion.getD a.ubicacion
    equipamiento := if u.equipamiento_set then u.equipamiento else a.equipamiento }

/-- `BaseRepository.update`: fetch the row by id; if found, assign the
supplied fields in place and commit.  `id` is the primary key, so at
most one row matches. -/
def update (s : Store) (id : Nat) (u : AulaUpdate) : Option Aula × Store :=
  match s.aulas.find? (fun a => decide (a.id = id)) with
  | none => (none, s)
  | some db_obj =>
      (some (apply_update db_obj u),
       { s with aulas := s.aulas.map (fun a => if a.id = id then apply_update a u else a) })

/-- `BaseRepository.delete`: fetch by id; if found, delete the row and
return `true`, otherwise return `false`. -/
def delete (s : Store) (id : Nat) : Bool × Store :=
  match s.aulas.find? (fun a => decide (a.id = id)) with
  | none => (false, s)
  | some _ => (true, { s with aulas := s.aulas.filter (fun a => decide (a.id ≠ id)) })

/-- The `tipo` filter of `AulaRepository.get_available_for_capacity`:
applied only when a `tipo` argument was provided. -/
def tipo_filter (tipo : Option TipoAula) (a : Aula) : Bool :=
  match tipo with
  | some t => decide (a.tipo = t)
  | none => true

/-- `AulaRepository.get_available_for_capacity`: filter
`Aula.capacidad >= capacidad_requerida`, optionally filter by `tipo`,
and order ascending by `capacidad` (`order_by(Aula.capacidad.asc())`). -/
def get_available_for_capacity (s : Store) (capacidad_requerida : Int)
    (tipo : Option TipoAula) : List Aula :=
  List.insertionSort (fun a b => a.capacidad ≤ b.capacidad)
    ((s.aulas.filter (fun a => capacidad_requerida ≤ a.capacidad)).filter (tipo_filter tipo))

/-- `AulaRepository.count_by_tipo`:
`query(Aula).filter(Aula.tipo == tipo).count()`. -/
def count_by_tipo (s : Store) (tipo : TipoAula) : Nat :=
  (s.aulas.filter (fun a => decide (a.tipo = tipo))).length

/-- The `por_tipo` dictionary of the statistics result. -/
structure PorTipo where
  teoria : Nat
  laboratorio : Nat
  seminario : Nat
deriving DecidableEq, Repr

/-- The statistics dictionary returned by
`AulaRepository.get_statistics`.  The SQL `AVG` is a real number,
modelled as a rational. -/
structure Statistics where
  total_aulas : Nat
  capacidad_promedio : Rat
  capacidad_maxima : Int
  capacidad_minima : Int
  por_tipo : PorTipo
deriving DecidableEq, Repr

/-- `AulaRepository.get_statistics`: one aggregate query for
`COUNT(id)`, `AVG(capacidad)`, `MAX(capacidad)`, `MIN(capacidad)` —
each aggregate other than `COUNT` is `NULL` on an empty table and the
`or 0` defaults it to `0` — plus three separate `count_by_tipo`
queries for the `por_tipo` dictionary. -/
def get_statistics (s : Store) : Statistics :=
  let caps : List Int := s.aulas.map (fun a => a.capacidad)
  { total_aulas := s.aulas.length
    capacidad_promedio :=
      if s.aulas.length = 0 then 0 else ((caps.sum : Int) : Rat) / (s.aulas.length : Rat)
    capacidad_maxima := (caps.max?).getD 0
    capacidad_minima := (caps.min?).getD 0
    por_tipo :=
      { teoria := count_by_tipo s TipoAula.teoria
        laboratorio := count_by_tipo s TipoAula.laboratorio
        seminario := count_by_tipo s TipoAula.seminario } }

end AulaRepository

namespace AulaService

/-- Detail message of Business Rule 2 of `AulaService.create_aula`. -/
def msg_capacidad_min : String := "La capacidad debe ser mayor a 0"

/-- Detail message of Business Rule 3 of `AulaService.create_aula`. -/
def msg_capacidad_max : String := "La capacidad máxima permitida es 500 estudiantes"

/-- Detail message of Business Rule 4 of `AulaService.create_aula`. -/
def msg_codigo_format : String :=
  "El código del aula debe seguir el formato: [LETRA]-[NUMERO] (ej: A-101)"

/-- One to three ASCII digit characters — a complete run for
`\d{1,3}`.  On ASCII input this is exactly Python's `\d`; Python
additionally accepts non-ASCII decimal digits, which the development
excludes by an explicit ASCII hypothesis. -/
def codigo_digits_run (ds : List Char) : Bool :=
  decide (1 ≤ ds.length ∧ ds.length ≤ 3) &&
  ds.all (fun x => decide ('0' ≤ x ∧ x ≤ '9'))

/-- The ways `\d{1,3}$` can complete a Python `re.match`: one to three
digits followed by the end of the string, or — because Python's `$`
anchor also matches just before a newline that ends the string — one
to three digits followed by a single trailing newline. -/
def codigo_tail_ok (ds : List Char) : Bool :=
  codigo_digits_run ds ||
  (decide (ds.getLast? = some '\n') && codigo_digits_run ds.dropLast)

/-- The match `re.match(r'^[A-Z]-\d{1,3}$', s)` of
`AulaService._validate_codigo_format`, read structurally over the
characters of the (already uppercased) code: one character in `A`–`Z`,
a hyphen, then one to three digits completing at the end of the string
or just before a single trailing newline, the two positions Python's
`$` accepts. -/
def matches_codigo_pattern (s : String) : Bool :=
  match s.data with
  | c :: d :: ds =>
      decide ('A' ≤ c ∧ c ≤ 'Z') && decide (d = '-') && codigo_tail_ok ds
  | _ => false

/-- `AulaService._validate_codigo_format`:
`re.match(r'^[A-Z]-\d{1,3}$', codigo.upper())`. -/
def validate_codigo_format (codigo : String) : Bool :=
  matches_codigo_pattern (py_upper codigo)

/-- `AulaService.create_aula`: Business Rule 1 (code uniqueness via
`get_by_codigo`, raising `AulaCodigoExistsException`), then Rule 2
(`capacidad <= 0`), then Rule 3 (`capacidad > 500`), then Rule 4 (code
format), each raising `ValidationException`; only then the repository
`create` runs. -/
def create_aula (s : Store) (aula_in : AulaCreate) : Except ApiError Aula × Store :=
  match AulaRepository.get_by_codigo s aula_in.codigo with
  | some _ => (Except.error (ApiError.conflict aula_in.codigo), s)
  | none =>
    if aula_in.capacidad ≤ 0 then
      (Except.error (ApiError.validation msg_capacidad_min), s)
    else if aula_in.capacidad > 500 then
      (Except.error (ApiError.validation msg_capacidad_max), s)
    else if !(validate_codigo_format aula_in.codigo) then
      (Except.error (ApiError.validation msg_codigo_format), s)
    else
      let created := AulaRepository.create s aula_in
      (Except.ok created.1, created.2)

/-- The codigo business rule of `AulaService.update_aula`:
`if aula_in.codigo and aula_in.codigo != existing_aula.codigo`, where
Python truthiness treats both an absent code and an empty string as
false, then conflict if `get_by_codigo` resolves. -/
def check_codigo_update (s : Store) (existing_aula : Aula) :
    Option String → Option ApiError
  | none => none
  | some c =>
      if c ≠ "" ∧ c ≠ existing_aula.codigo then
        if (AulaRepository.get_by_codigo s c).isSome then
          some (ApiError.conflict c)
        else none
      else none

/-- The capacity business rule of `AulaService.update_aula`: when
`capacidad` is supplied, the same `<= 0` and `> 500` checks as
creation, with the same messages. -/
def check_capacidad_update : Option Int → Option ApiError
  | none => none
  | some cap =>
      if cap ≤ 0 then some (ApiError.validation msg_capacidad_min)
      else if cap > 500 then some (ApiError.validation msg_capacidad_max)
      else none

/-- `AulaService.update_aula`: existence check, codigo-uniqueness rule,
capacity rule, then `repository.update` with only the supplied
fields. -/
def update_aula (s : Store) (aula_id : Nat) (aula_in : AulaUpdate) :
    Except ApiError Aula × Store :=
  match AulaRepository.get s aula_id with
  | none => (Except.error (ApiError.notFound aula_id), s)
  | some existing_aula =>
    match check_codigo_update s existing_aula aula_in.codigo with
    | some e => (Except.error e, s)
    | none =>
      match check_capacidad_update aula_in.capacidad with
      | some e => (Except.error e, s)
      | none =>
        match AulaRepository.update s aula_id aula_in with
        | (some aula, s2) => (Except.ok aula, s2)
        | (none, s2) => (Except.error (ApiError.notFound aula_id), s2)

/-- `AulaService.delete_aula`: existence check (the active-assignments
rule is an unimplemented placeholder), then `repository.delete`. -/
def delete_aula (s : Store) (aula_id : Nat) : Except ApiError Bool × Store :=
  match AulaRepository.get s aula_id with
  | none => (Except.error (ApiError.notFound aula_id), s)
  | some _ =>
    let deleted := AulaRepository.delete s aula_id
    (Except.ok deleted.1, deleted.2)

/-- The buffered capacity of `AulaService.get_available_for_capacity`:
`int(capacidad_requerida * 1.1)`, i.e. multiplication by `11/10`
truncated toward zero, which for a natural number is `n * 11 / 10` in
natural-number division. -/
def capacidad_con_buffer (capacidad_requerida : Nat) : Nat :=
  capacidad_requerida * 11 / 10

/-- `AulaService.get_available_for_capacity`: add the 10% buffer and
delegate to the repository query. -/
def get_available_for_capacity (s : Store) (capacidad_requerida : Nat)
    (tipo : Option TipoAula) : List Aula :=
  AulaRepository.get_available_for_capacity s
    ((capacidad_con_buffer capacidad_requerida : Nat) : Int) tipo

end AulaService

/-- A spec-side reading of "codigo matches `^[A-Z]-\d{1,3}$`
case-insensitively": one ASCII letter of either case, a hyphen, then
one to three ASCII digits, anchored at both ends.  Stated from the
spec's words for comparison with `AulaService.validate_codigo_format`,
which is translated from the source. -/
def spec_codigo_matches_ci (s : String) : Bool :=
  match s.data with
  | c :: d :: ds =>
      decide (('A' ≤ c ∧ c ≤ 'Z') ∨ ('a' ≤ c ∧ c ≤ 'z')) && decide (d = '-') &&
      decide (1 ≤ ds.length ∧ ds.length ≤ 3) &&
      ds.all (fun x => decide ('0' ≤ x ∧ x ≤ '9'))
  | _ => false

/-- The amended spec-side reading of the format rule: the code matches
`^[A-Z]-\d{1,3}$` case-insensitively — one ASCII letter of either
case, a hyphen, one to three digits — optionally followed by one
trailing newline, the extra completion Python's `$` anchor accepts. -/
def spec_codigo_matches_ci_nl (s : String) : Bool :=
  match s.data with
  | c :: d :: ds =>
      decide (('A' ≤ c ∧ c ≤ 'Z') ∨ ('a' ≤ c ∧ c ≤ 'z')) && decide (d = '-') &&
      AulaService.codigo_tail_ok ds
  | _ => false

/-- An ASCII-only string: the domain on which the embeddings of
Python's `upper()` and `\d` are exact. -/
def ascii_string (s : String) : Bool :=
  s.data.all (fun c => decide (c.toNat < 128))

/-- The empty store. -/
def s0 : Store := { aulas := [], nextId := 1 }

/-- A creation request for code `A-101`. -/
def reqA : AulaCreate :=
  { codigo := "A-101", capacidad := 40, tipo := TipoAula.teoria
    ubicacion := "Edificio A, Piso 1", equipamiento := none }

/-- The same request with the code in lowercase. -/
def req_a : AulaCreate := { reqA with codigo := "a-101" }

/-- The row created from `reqA` in the empty store. -/
def aulaA : Aula :=
  { id := 1, codigo := "A-101", capacidad := 40, tipo := TipoAula.teoria
    ubicacion := "Edificio A, Piso 1", equipamiento := none }

/-- The store after creating `reqA` in the empty store. -/
def s1A : Store := { aulas := [aulaA], nextId := 2 }

/-- The update request that supplies only `ubicacion`. -/
def updUbicacion : AulaUpdate :=
  { codigo := none, capacidad := none, tipo := none,
    ubicacion := some "Edificio B, Piso 2",
    equipamiento_set := false, equipamiento := none }

/-- The stored row after moving `aulaA` to the new location. -/
def aulaA_moved : Aula := { aulaA with ubicacion := "Edificio B, Piso 2" }

/-- The store after the location-only update. -/
def s1A_moved : Store := { aulas := [aulaA_moved], nextId := 2 }

/-- The capacity order used by `order_by(Aula.capacidad.asc())` is total. -/
instance : IsTotal Aula (fun a b => a.capacidad ≤ b.capacidad) :=
  ⟨fun a b => le_total a.capacidad b.capacidad⟩

/-- The capacity order used by `order_by(Aula.capacidad.asc())` is transitive. -/
instance : IsTrans Aula (fun a b => a.capacidad ≤ b.capacidad) :=
  ⟨fun _ _ _ h1 h2 => le_trans h1 h2⟩


/-! ### Character-level facts about Python's ASCII `upper` -/

theorem char_le_iff {a b : Char} : a ≤ b ↔ a.toNat ≤ b.toNat := by
  rw [Char.le_def]
  exact ⟨fun h => h, fun h => h⟩

theorem char_eq_iff {a b : Char} : a = b ↔ a.toNat = b.toNat :=
  ⟨fun h => h ▸ rfl, fun h => Char.ext (UInt32.ext h)⟩

theorem char_toNat_ofNat_of_valid (n : Nat) (h : n.isValidChar) :
    (Char.ofNat n).toNat = n := by
  rw [Char.ofNat, dif_pos h]
  rfl

/-- `Char.toUpper` on code points: subtract 32 on `a`–`z`, identity
elsewhere. -/
theorem toNat_toUpper (c : Char) :
    (Char.toUpper c).toNat =
      if c.toNat ≥ 97 ∧ c.toNat ≤ 122 then c.toNat - 32 else c.toNat := by
  show (if c.toNat ≥ 97 ∧ c.toNat ≤ 122 then Char.ofNat (c.toNat - 32) else c).toNat = _
  by_cases h : c.toNat ≥ 97 ∧ c.toNat ≤ 122
  · rw [if_pos h, if_pos h]
    exact char_toNat_ofNat_of_valid _ (Or.inl (by omega))
  · rw [if_neg h, if_neg h]

theorem toUpper_eq_dash_iff (c : Char) : Char.toUpper c = '-' ↔ c = '-' := by
  rw [char_eq_iff, char_eq_iff, toNat_toUpper]
  have hd : ('-' : Char).toNat = 45 := rfl
  rw [hd]
  split <;> omega

theorem toUpper_letter_iff (c : Char) :
    ('A' ≤ Char.toUpper c ∧ Char.toUpper c ≤ 'Z') ↔
      (('A' ≤ c ∧ c ≤ 'Z') ∨ ('a' ≤ c ∧ c ≤ 'z')) := by
  simp only [char_le_iff, toNat_toUpper]
  have hA : ('A' : Char).toNat = 65 := rfl
  have hZ : ('Z' : Char).toNat = 90 := rfl
  have ha : ('a' : Char).toNat = 97 := rfl
  have hz : ('z' : Char).toNat = 122 := rfl
  rw [hA, hZ, ha, hz]
  split <;> omega

theorem toUpper_digit_iff (c : Char) :
    ('0' ≤ Char.toUpper c ∧ Char.toUpper c ≤ '9') ↔ ('0' ≤ c ∧ c ≤ '9') := by
  simp only [char_le_iff, toNat_toUpper]
  have h0 : ('0' : Char).toNat = 48 := rfl
  have h9 : ('9' : Char).toNat = 57 := rfl
  rw [h0, h9]
  split <;> omega

theorem py_upper_data (s : String) : (py_upper s).data = s.data.map Char.toUpper := rfl

/-- The source's format check — uppercase, then match the strict
pattern — agrees with matching the pattern case-insensitively. -/
theorem toUpper_eq_newline_iff (c : Char) : Char.toUpper c = '\n' ↔ c = '\n' := by
  rw [char_eq_iff, char_eq_iff, toNat_toUpper]
  have hn : ('\n' : Char).toNat = 10 := rfl
  rw [hn]
  split <;> omega

theorem codigo_digits_run_map_toUpper (ds : List Char) :
    AulaService.codigo_digits_run (ds.map Char.toUpper) =
      AulaService.codigo_digits_run ds := by
  unfold AulaService.codigo_digits_run
  simp only [List.length_map, List.all_map, Function.comp]
  exact congrArg _ (congrArg ds.all
    (funext fun x => decide_eq_decide.mpr (toUpper_digit_iff x)))

theorem codigo_tail_ok_map_toUpper (ds : List Char) :
    AulaService.codigo_tail_ok (ds.map Char.toUpper) =
      AulaService.codigo_tail_ok ds := by
  unfold AulaService.codigo_tail_ok
  rw [codigo_digits_run_map_toUpper, List.getLast?_map, ← List.map_dropLast,
    codigo_digits_run_map_toUpper]
  cases h : ds.getLast? with
  | none => rfl
  | some c =>
      have hiff : (some (Char.toUpper c) = some '\n') ↔ (some c = some '\n') := by
        constructor
        · intro hx
          exact congrArg some ((toUpper_eq_newline_iff c).mp (Option.some.inj hx))
        · intro hx
          exact congrArg some ((toUpper_eq_newline_iff c).mpr (Option.some.inj hx))
      exact congrArg (fun b => AulaService.codigo_digits_run ds || b)
        (congrArg (fun b => b && AulaService.codigo_digits_run ds.dropLast)
          (decide_eq_decide.mpr hiff))

/-- The source's format check — uppercase, then match the pattern —
agrees with matching the pattern case-insensitively (with the optional
trailing newline Python's `$` accepts) on every string of the model;
the model itself is exact for ASCII input. -/
theorem validate_codigo_format_eq_spec_ci_nl (s : String) :
    AulaService.validate_codigo_format s = spec_codigo_matches_ci_nl s := by
  unfold AulaService.validate_codigo_format AulaService.matches_codigo_pattern
    spec_codigo_matches_ci_nl
  rw [py_upper_data]
  cases hd : s.data with
  | nil => rfl
  | cons c t =>
    cases t with
    | nil => rfl
    | cons d rest =>
      simp only [List.map_cons]
      rw [codigo_tail_ok_map_toUpper]
      congr 1
      congr 1
      · exact decide_eq_decide.mpr (toUpper_letter_iff c)
      · exact decide_eq_decide.mpr (toUpper_eq_dash_iff d)

/-- The three validation messages are pairwise distinct strings. -/
theorem msgs_distinct :
    AulaService.msg_capacidad_min ≠ AulaService.msg_capacidad_max ∧
    AulaService.msg_capacidad_min ≠ AulaService.msg_codigo_format ∧
    AulaService.msg_capacidad_max ≠ AulaService.msg_codigo_format := by
  refine ⟨?_, ?_, ?_⟩ <;> decide

/-- A table row count splits into the three per-type counts. -/
theorem length_eq_sum_tipo_counts (l : List Aula) :
    l.length = (l.filter (fun a => decide (a.tipo = TipoAula.teoria))).length +
      (l.filter (fun a => decide (a.tipo = TipoAula.laboratorio))).length +
      (l.filter (fun a => decide (a.tipo = TipoAula.seminario))).length := by
  induction l with
  | nil => rfl
  | cons a t ih =>
      cases h : a.tipo <;> simp [List.filter_cons, h] <;> omega

/-- C9: statistics over an empty store are all zero — total `0`,
average capacity `0`, maximum capacity `0`, minimum capacity `0`, and a
per-type count of `0` for each of teoria, laboratorio and seminario —
and for every store the `por_tipo` component is assembled from the
three separate `count_by_tipo` queries. -/
theorem statistics_empty_store :
    (∀ s : Store, s.aulas = [] →
      AulaRepository.get_statistics s =
        { total_aulas := 0, capacidad_promedio := 0, capacidad_maxima := 0,
          capacidad_minima := 0,
          por_tipo := { teoria := 0, laboratorio := 0, seminario := 0 } }) ∧
    (∀ s : Store,
      (AulaRepository.get_statistics s).por_tipo =
        { teoria := AulaRepository.count_by_tipo s TipoAula.teoria
          laboratorio := AulaRepository.count_by_tipo s TipoAula.laboratorio
          seminario := AulaRepository.count_by_tipo s TipoAula.seminario }) := by
  constructor
  · intro s h
    simp [AulaRepository.get_statistics, AulaRepository.count_by_tipo, h]
  · intro s
    rfl

/-- C9 witness: the empty store `s0` satisfies the hypothesis and gets
the all-zero statistics. -/
theorem statistics_empty_store_witness :
    AulaRepository.get_statistics s0 =
      { total_aulas := 0, capacidad_promedio := 0, capacidad_maxima := 0,
        capacidad_minima := 0,
        por_tipo := { teoria := 0, laboratorio := 0, seminario := 0 } } :=
  statistics_empty_store.1 s0 rfl

/-- C10: since every row's `tipo` is one of the three enumeration
values, the statistics total equals the sum of the three per-type
counts. -/
theorem statistics_total_eq_sum_por_tipo (s : Store) :
    (AulaRepository.get_statistics s).total_aulas =
      (AulaRepository.get_statistics s).por_tipo.teoria +
      (AulaRepository.get_statistics s).por_tipo.laboratorio +
      (AulaRepository.get_statistics s).por_tipo.seminario := by
  show s.aulas.length = _
  exact length_eq_sum_tipo_counts s.aulas

/-- C6: the service passes `floor(requiredCapacity * 1.1)` — the
truncating cast of the source — to the store (`100 ↦ 110`, `45 ↦ 49`),
and the store query returns exactly the rows whose `capacidad` meets
the adjusted value and whose `tipo` matches the optional filter,
ordered ascending by `capacidad`. -/
theorem available_for_capacity_spec :
    (AulaService.capacidad_con_buffer 100 = 110 ∧
     AulaService.capacidad_con_buffer 45 = 49) ∧
    (∀ (s : Store) (n : Nat) (t : Option TipoAula),
      AulaService.get_available_for_capacity s n t =
        AulaRepository.get_available_for_capacity s
          ((AulaService.capacidad_con_buffer n : Nat) : Int) t) ∧
    (∀ (s : Store) (cap : Int) (t : Option TipoAula) (a : Aula),
      a ∈ AulaRepository.get_available_for_capacity s cap t ↔
        a ∈ s.aulas ∧ cap ≤ a.capacidad ∧ AulaRepository.tipo_filter t a = true) ∧
    (∀ (s : Store) (cap : Int) (t : Option TipoAula),
      List.Sorted (fun a b => a.capacidad ≤ b.capacidad)
        (AulaRepository.get_available_for_capacity s cap t)) := by
  refine ⟨⟨rfl, rfl⟩, fun s n t => rfl, ?_, ?_⟩
  · intro s cap t a
    simp only [AulaRepository.get_available_for_capacity, List.mem_insertionSort,
      List.mem_filter, decide_eq_true_eq, and_assoc]
  · intro s cap t
    exact List.sorted_insertionSort _ _

/-! ### Shared facts about the create path -/

/-- If the code-uniqueness lookup resolves, creation raises the
conflict error regardless of the other fields. -/
theorem create_conflict_aux (s : Store) (a : AulaCreate) (existing : Aula)
    (hget : AulaRepository.get_by_codigo s a.codigo = some existing) :
    (AulaService.create_aula s a).1 = Except.error (ApiError.conflict a.codigo) := by
  unfold AulaService.create_aula
  rw [hget]

/-- If the code is free and `capacidad <= 0`, creation raises the
minimum-capacity validation error. -/
theorem create_cap_min_aux (s : Store) (a : AulaCreate)
    (hget : AulaRepository.get_by_codigo s a.codigo = none)
    (hcap : a.capacidad ≤ 0) :
    (AulaService.create_aula s a).1 =
      Except.error (ApiError.validation AulaService.msg_capacidad_min) := by
  unfold AulaService.create_aula
  rw [hget, if_pos hcap]

/-- If the code is free and `capacidad > 500`, creation raises the
maximum-capacity validation error. -/
theorem create_cap_max_aux (s : Store) (a : AulaCreate)
    (hget : AulaRepository.get_by_codigo s a.codigo = none)
    (hcap : 500 < a.capacidad) :
    (AulaService.create_aula s a).1 =
      Except.error (ApiError.validation AulaService.msg_capacidad_max) := by
  unfold AulaService.create_aula
  rw [hget, if_neg (by omega), if_pos (by omega)]

/-- If the code is free, the capacity is in bounds and the format check
fails, creation raises the format validation error. -/
theorem create_format_error_aux (s : Store) (a : AulaCreate)
    (hget : AulaRepository.get_by_codigo s a.codigo = none)
    (h1 : 0 < a.capacidad) (h2 : a.capacidad ≤ 500)
    (h3 : AulaService.validate_codigo_format a.codigo = false) :
    (AulaService.create_aula s a).1 =
      Except.error (ApiError.validation AulaService.msg_codigo_format) := by
  unfold AulaService.create_aula
  rw [hget, if_neg (by omega), if_neg (by omega)]
  simp [h3]

/-- Inverting a successful creation: the code lookup found nothing, the
returned row copies the input fields verbatim under the fresh id, and
the new store appends exactly that row. -/
theorem create_aula_ok_inversion (s s1 : Store) (a : AulaCreate) (aula : Aula)
    (h : AulaService.create_aula s a = (Except.ok aula, s1)) :
    AulaRepository.get_by_codigo s a.codigo = none ∧
    aula = { id := s.nextId, codigo := a.codigo, capacidad := a.capacidad,
             tipo := a.tipo, ubicacion := a.ubicacion,
             equipamiento := a.equipamiento } ∧
    s1 = { aulas := s.aulas ++ [aula], nextId := s.nextId + 1 } := by
  unfold AulaService.create_aula at h
  cases hget : AulaRepository.get_by_codigo s a.codigo with
  | some x =>
      rw [hget] at h
      simp [Prod.ext_iff] at h
  | none =>
      rw [hget] at h
      by_cases h1 : a.capacidad ≤ 0
      · simp [h1, Prod.ext_iff] at h
      · by_cases h2 : a.capacidad > 500
        · simp [h1, h2, Prod.ext_iff] at h
        · by_cases h3 : AulaService.validate_codigo_format a.codigo
          · simp [h1, h2, h3, AulaRepository.create, Prod.ext_iff] at h
            obtain ⟨ha, hs⟩ := h
            subst ha
            subst hs
            exact ⟨rfl, rfl, rfl⟩
          · simp [h1, h2, h3, Prod.ext_iff] at h

/-- C3: on creation (once the code-uniqueness check has passed) and on
update (once the record exists and the codigo rule has passed),
`capacidad <= 0` fails with the minimum-capacity `ValidationError` and
`capacidad >= 501` fails with the maximum-capacity `ValidationError`,
while `capacidad = 1` and `capacidad = 500` pass the capacity checks:
creation never produces a capacity error for them, and an update
supplying only such a capacity succeeds. -/
theorem capacidad_bounds_create_and_update :
    (∀ (s : Store) (a : AulaCreate),
      AulaRepository.get_by_codigo s a.codigo = none → a.capacidad ≤ 0 →
      (AulaService.create_aula s a).1 =
        Except.error (ApiError.validation AulaService.msg_capacidad_min)) ∧
    (∀ (s : Store) (a : AulaCreate),
      AulaRepository.get_by_codigo s a.codigo = none → 501 ≤ a.capacidad →
      (AulaService.create_aula s a).1 =
        Except.error (ApiError.validation AulaService.msg_capacidad_max)) ∧
    (∀ (s : Store) (a : AulaCreate),
      a.capacidad = 1 ∨ a.capacidad = 500 →
      (AulaService.create_aula s a).1 ≠
        Except.error (ApiError.validation AulaService.msg_capacidad_min) ∧
      (AulaService.create_aula s a).1 ≠
        Except.error (ApiError.validation AulaService.msg_capacidad_max)) ∧
    (∀ (s : Store) (aula_id : Nat) (u : AulaUpdate) (existing : Aula) (cap : Int),
      AulaRepository.get s aula_id = some existing →
      AulaService.check_codigo_update s existing u.codigo = none →
      u.capacidad = some cap → cap ≤ 0 →
      (AulaService.update_aula s aula_id u).1 =
        Except.error (ApiError.validation AulaService.msg_capacidad_min)) ∧
    (∀ (s : Store) (aula_id : Nat) (u : AulaUpdate) (existing : Aula) (cap : Int),
      AulaRepository.get s aula_id = some existing →
      AulaService.check_codigo_update s existing u.codigo = none →
      u.capacidad = some cap → 501 ≤ cap →
      (AulaService.update_aula s aula_id u).1 =
        Except.error (ApiError.validation AulaService.msg_capacidad_max)) ∧
    (∀ (s : Store) (aula_id : Nat) (u : AulaUpdate) (existing : Aula),
      AulaRepository.get s aula_id = some existing →
      AulaService.check_codigo_update s existing u.codigo = none →
      (u.capacidad = some 1 ∨ u.capacidad = some 500) →
      ((AulaService.update_aula s aula_id u).1).isOk = true) := by
  refine ⟨?_, ?_, ?_, ?_, ?_, ?_⟩
  · exact fun s a hget hcap => create_cap_min_aux s a hget hcap
  · exact fun s a hget hcap => create_cap_max_aux s a hget (by omega)
  · intro s a hcap
    unfold AulaService.create_aula
    cases hget : AulaRepository.get_by_codigo s a.codigo with
    | some x => constructor <;> simp
    | none =>
        rw [if_neg (by omega), if_neg (by omega)]
        by_cases hf : AulaService.validate_codigo_format a.codigo
        · simp [hf]
        · simp [hf, AulaService.msg_codigo_format, AulaService.msg_capacidad_min,
            AulaService.msg_capacidad_max]
  · intro s aula_id u existing cap hget hcod hcap hle
    simp [AulaService.update_aula, hget, hcod, hcap,
      AulaService.check_capacidad_update, hle]
  · intro s aula_id u existing cap hget hcod hcap hle
    simp [AulaService.update_aula, hget, hcod, hcap,
      AulaService.check_capacidad_update,
      show ¬(cap ≤ 0) by omega, show cap > 500 by omega]
  · intro s aula_id u existing hget hcod hcap
    have hfind : s.aulas.find? (fun x => decide (x.id = aula_id)) = some existing := hget
    rcases hcap with h | h <;>
      simp [AulaService.update_aula, hget, hcod, h,
        AulaService.check_capacidad_update, AulaRepository.update, hfind,
        Except.isOk, Except.toBool]

/-- C3 witness: concrete boundary inputs — capacity `0` and `501` fail
creation with the respective validation errors, `500` passes the
capacity checks, and an update of the stored classroom to capacity `0`
fails with the minimum-capacity error. -/
theorem capacidad_bounds_witness :
    (AulaService.create_aula s0 { reqA with capacidad := 0 }).1 =
      Except.error (ApiError.validation AulaService.msg_capacidad_min) ∧
    (AulaService.create_aula s0 { reqA with capacidad := 501 }).1 =
      Except.error (ApiError.validation AulaService.msg_capacidad_max) ∧
    ((AulaService.create_aula s0 { reqA with capacidad := 500 }).1 ≠
      Except.error (ApiError.validation AulaService.msg_capacidad_min)) ∧
    (AulaService.update_aula s1A 1
        { codigo := none, capacidad := some 0, tipo := none, ubicacion := none,
          equipamiento_set := false, equipamiento := none }).1 =
      Except.error (ApiError.validation AulaService.msg_capacidad_min) :=
  ⟨capacidad_bounds_create_and_update.1 s0 _ rfl (by decide),
   capacidad_bounds_create_and_update.2.1 s0 _ rfl (by decide),
   (capacidad_bounds_create_and_update.2.2.1 s0 _ (Or.inr rfl)).1,
   capacidad_bounds_create_and_update.2.2.2.1 s1A 1 _ aulaA 0 rfl rfl rfl
     (by decide)⟩

/-- C5: deterministic error precedence on creation — an existing code
raises `Conflict` whatever the capacity and format; with a free code,
`capacidad <= 0` raises its validation error before anything else;
then `capacidad > 500`; and only with a free code and in-bounds
capacity does a bad format raise the format validation error. -/
theorem create_error_precedence :
    (∀ (s : Store) (a : AulaCreate) (existing : Aula),
      AulaRepository.get_by_codigo s a.codigo = some existing →
      (AulaService.create_aula s a).1 =
        Except.error (ApiError.conflict a.codigo)) ∧
    (∀ (s : Store) (a : AulaCreate),
      AulaRepository.get_by_codigo s a.codigo = none → a.capacidad ≤ 0 →
      (AulaService.create_aula s a).1 =
        Except.error (ApiError.validation AulaService.msg_capacidad_min)) ∧
    (∀ (s : Store) (a : AulaCreate),
      AulaRepository.get_by_codigo s a.codigo = none →
      0 < a.capacidad → 500 < a.capacidad →
      (AulaService.create_aula s a).1 =
        Except.error (ApiError.validation AulaService.msg_capacidad_max)) ∧
    (∀ (s : Store) (a : AulaCreate),
      AulaRepository.get_by_codigo s a.codigo = none →
      0 < a.capacidad → a.capacidad ≤ 500 →
      AulaService.validate_codigo_format a.codigo = false →
      (AulaService.create_aula s a).1 =
        Except.error (ApiError.validation AulaService.msg_codigo_format)) :=
  ⟨fun s a existing hget => create_conflict_aux s a existing hget,
   fun s a hget hcap => create_cap_min_aux s a hget hcap,
   fun s a hget _ hcap => create_cap_max_aux s a hget hcap,
   fun s a hget h1 h2 h3 => create_format_error_aux s a hget h1 h2 h3⟩

/-- C5 witness: a duplicate code with an invalid capacity still raises
`Conflict`, and an invalid capacity with a bad format raises the
capacity error, not the format one. -/
theorem create_error_precedence_witness :
    (AulaService.create_aula s1A { reqA with capacidad := -5 }).1 =
      Except.error (ApiError.conflict "A-101") ∧
    (AulaService.create_aula s0 { reqA with codigo := "bad", capacidad := 0 }).1 =
      Except.error (ApiError.validation AulaService.msg_capacidad_min) :=
  ⟨create_error_precedence.1 s1A { reqA with capacidad := -5 } aulaA rfl,
   create_error_precedence.2.1 s0 { reqA with codigo := "bad", capacidad := 0 }
     rfl (by decide)⟩

/-- C1 counterexample: creating `A-101` and then `a-101` — the same
code up to ASCII case — both succeed, because `get_by_codigo` is an
exact string match and the service never normalises the case, so it is
not true that exactly one creation succeeds. -/
theorem create_case_variants_both_succeed :
    ((AulaService.create_aula s0 reqA).1).isOk = true ∧
    ((AulaService.create_aula (AulaService.create_aula s0 reqA).2 req_a).1).isOk
      = true :=
  ⟨rfl, rfl⟩

/-- C1 (amended): uniqueness holds for the exact code string — after a
successful creation, a second create request carrying the identical
`codigo` string fails with `Conflict` and leaves the store unchanged. -/
theorem create_same_codigo_conflict (s s1 : Store) (a b : AulaCreate) (aula : Aula)
    (hcreate : AulaService.create_aula s a = (Except.ok aula, s1))
    (hcod : b.codigo = a.codigo) :
    AulaService.create_aula s1 b =
      (Except.error (ApiError.conflict b.codigo), s1) := by
  obtain ⟨hnone, ha, hs⟩ := create_aula_ok_inversion s s1 a aula hcreate
  have hsome : AulaRepository.get_by_codigo s1 b.codigo = some aula := by
    subst hs
    unfold AulaRepository.get_by_codigo at hnone ⊢
    rw [hcod, List.find?_append, hnone]
    simp [ha]
  unfold AulaService.create_aula
  rw [hsome]

/-- C1 witness: after creating `A-101` in the empty store, creating the
identical code again yields `Conflict`. -/
theorem create_same_codigo_conflict_witness :
    AulaService.create_aula s1A reqA =
      (Except.error (ApiError.conflict "A-101"), s1A) :=
  create_same_codigo_conflict s0 s1A reqA reqA aulaA rfl rfl

/-- C2 counterexample: creating `a-101` succeeds and the returned
record's `codigo` is the verbatim input `a-101`, not the uppercased
`A-101` the claim requires. -/
theorem create_codigo_not_uppercased :
    ((AulaService.create_aula s0 req_a).1).map Aula.codigo = Except.ok "a-101" ∧
    py_upper req_a.codigo = "A-101" ∧
    ("a-101" : String) ≠ "A-101" :=
  ⟨rfl, rfl, by decide⟩

/-- C2 (amended): a successful creation returns the input `codigo`
verbatim (no case normalisation), and a subsequent `get_by_codigo` with
that exact code returns the created record. -/
theorem create_returns_verbatim_codigo (s s1 : Store) (a : AulaCreate) (aula : Aula)
    (hcreate : AulaService.create_aula s a = (Except.ok aula, s1)) :
    aula.codigo = a.codigo ∧
    AulaRepository.get_by_codigo s1 a.codigo = some aula := by
  obtain ⟨hnone, ha, hs⟩ := create_aula_ok_inversion s s1 a aula hcreate
  constructor
  · rw [ha]
  · subst hs
    unfold AulaRepository.get_by_codigo at hnone ⊢
    rw [List.find?_append, hnone]
    simp [ha]


/-- C2 witness: the concrete creation of `A-101` returns that code and
is found again by `get_by_codigo`. -/
theorem create_returns_verbatim_codigo_witness :
    aulaA.codigo = reqA.codigo ∧
    AulaRepository.get_by_codigo s1A reqA.codigo = some aulaA :=
  create_returns_verbatim_codigo s0 s1A reqA aulaA rfl

/-- C7: a successful update changes exactly the supplied fields — every
field of the updated record equals the supplied value when the request
carries one and the pre-update value otherwise, with the explicit-null
case of `equipamiento` (set-flag true, value null) distinct from an
absent field; in particular an update supplying only `ubicacion`
leaves `codigo`, `capacidad`, `tipo` and `equipamiento` unchanged. -/
theorem update_changes_only_supplied_fields (s s1 : Store) (aula_id : Nat)
    (u : AulaUpdate) (existing aula : Aula)
    (hget : AulaRepository.get s aula_id = some existing)
    (h : AulaService.update_aula s aula_id u = (Except.ok aula, s1)) :
    aula.codigo = u.codigo.getD existing.codigo ∧
    aula.capacidad = u.capacidad.getD existing.capacidad ∧
    aula.tipo = u.tipo.getD existing.tipo ∧
    aula.ubicacion = u.ubicacion.getD existing.ubicacion ∧
    aula.equipamiento =
      (if u.equipamiento_set then u.equipamiento else existing.equipamiento) := by
  unfold AulaService.update_aula at h
  split at h
  · simp [Prod.ext_iff] at h
  · rename_i existing_aula heq
    rw [hget] at heq
    injection heq with heq2
    subst heq2
    split at h
    · simp [Prod.ext_iff] at h
    · split at h
      · simp [Prod.ext_iff] at h
      · split at h
        · rename_i aula2 s2 heq2
          simp only [Prod.ext_iff, Except.ok.injEq] at h
          obtain ⟨ha, _⟩ := h
          subst ha
          unfold AulaRepository.update at heq2
          rw [show s.aulas.find? (fun x => decide (x.id = aula_id)) =
            some existing from hget] at heq2
          simp only [Prod.ext_iff, Option.some.injEq] at heq2
          obtain ⟨ha2, _⟩ := heq2
          subst ha2
          exact ⟨rfl, rfl, rfl, rfl, rfl⟩
        · simp [Prod.ext_iff] at h

/-- C7 witness: updating only `ubicacion` of the stored `A-101` leaves
its code, capacity, type and equipment unchanged. -/
theorem update_changes_only_supplied_fields_witness :
    aulaA_moved.codigo = updUbicacion.codigo.getD aulaA.codigo ∧
    aulaA_moved.capacidad = updUbicacion.capacidad.getD aulaA.capacidad ∧
    aulaA_moved.tipo = updUbicacion.tipo.getD aulaA.tipo ∧
    aulaA_moved.ubicacion = updUbicacion.ubicacion.getD aulaA.ubicacion ∧
    aulaA_moved.equipamiento =
      (if updUbicacion.equipamiento_set then updUbicacion.equipamiento
       else aulaA.equipamiento) :=
  update_changes_only_supplied_fields s1A s1A_moved 1 updUbicacion aulaA
    aulaA_moved rfl rfl

/-- Every execution of the create service either succeeds or returns
the store it was given. -/
theorem create_aula_store_cases (s : Store) (a : AulaCreate) :
    ((AulaService.create_aula s a).1).isOk = true ∨
    (AulaService.create_aula s a).2 = s := by
  unfold AulaService.create_aula
  split
  · exact Or.inr rfl
  · split
    · exact Or.inr rfl
    · split
      · exact Or.inr rfl
      · split
        · exact Or.inr rfl
        · exact Or.inl rfl

/-- Every execution of the update service either succeeds or returns
the store it was given. -/
theorem update_aula_store_cases (s : Store) (aula_id : Nat) (u : AulaUpdate) :
    ((AulaService.update_aula s aula_id u).1).isOk = true ∨
    (AulaService.update_aula s aula_id u).2 = s := by
  unfold AulaService.update_aula
  split
  · exact Or.inr rfl
  · split
    · exact Or.inr rfl
    · split
      · exact Or.inr rfl
      · split
        · exact Or.inl rfl
        · rename_i s2 heq
          right
          unfold AulaRepository.update at heq
          split at heq
          · simp only [Prod.ext_iff] at heq
            exact heq.2.symm
          · simp [Prod.ext_iff] at heq

/-- Every execution of the delete service either succeeds or returns
the store it was given. -/
theorem delete_aula_store_cases (s : Store) (aula_id : Nat) :
    ((AulaService.delete_aula s aula_id).1).isOk = true ∨
    (AulaService.delete_aula s aula_id).2 = s := by
  unfold AulaService.delete_aula
  split
  · exact Or.inr rfl
  · exact Or.inl rfl

/-- C8: every create, update or delete that fails with an error leaves
the store exactly as it was — all business-rule checks run before the
single mutating repository call, so a failed operation performs no
partial write. -/
theorem failed_operations_leave_store_unchanged :
    (∀ (s : Store) (a : AulaCreate) (e : ApiError),
      (AulaService.create_aula s a).1 = Except.error e →
      (AulaService.create_aula s a).2 = s) ∧
    (∀ (s : Store) (aula_id : Nat) (u : AulaUpdate) (e : ApiError),
      (AulaService.update_aula s aula_id u).1 = Except.error e →
      (AulaService.update_aula s aula_id u).2 = s) ∧
    (∀ (s : Store) (aula_id : Nat) (e : ApiError),
      (AulaService.delete_aula s aula_id).1 = Except.error e →
      (AulaService.delete_aula s aula_id).2 = s) := by
  refine ⟨?_, ?_, ?_⟩
  · intro s a e h
    rcases create_aula_store_cases s a with hok | hs
    · rw [h] at hok
      simp [Except.isOk, Except.toBool] at hok
    · exact hs
  · intro s aula_id u e h
    rcases update_aula_store_cases s aula_id u with hok | hs
    · rw [h] at hok
      simp [Except.isOk, Except.toBool] at hok
    · exact hs
  · intro s aula_id e h
    rcases delete_aula_store_cases s aula_id with hok | hs
    · rw [h] at hok
      simp [Except.isOk, Except.toBool] at hok
    · exact hs

/-- C8 witness: deleting a missing id fails with `NotFound` and leaves
the empty store untouched, and a conflicting create leaves its store
untouched. -/
theorem failed_operations_witness :
    (AulaService.delete_aula s0 1).1 = Except.error (ApiError.notFound 1) ∧
    (AulaService.delete_aula s0 1).2 = s0 ∧
    (AulaService.create_aula s1A reqA).2 = s1A :=
  ⟨rfl,
   failed_operations_leave_store_unchanged.2.2 s0 1 (ApiError.notFound 1) rfl,
   failed_operations_leave_store_unchanged.1 s1A reqA
     (ApiError.conflict "A-101") rfl⟩

/-- C4 counterexample: the code `A-101` followed by a newline does not
match `^[A-Z]-\d{1,3}$` read as one letter, hyphen and one to three
digits — yet the source's `re.match` accepts it, because Python's `$`
also matches just before a trailing newline, so its creation succeeds
instead of failing with `ValidationError`. -/
theorem codigo_format_newline_counterexample :
    AulaService.validate_codigo_format "A-101\n" = true ∧
    spec_codigo_matches_ci "A-101\n" = false ∧
    ((AulaService.create_aula s0 { reqA with codigo := "A-101\n" }).1).isOk
      = true :=
  ⟨rfl, rfl, rfl⟩

/-- C4 (amended): for ASCII codes — where the embedding of Python's
`upper()` and `\d` is exact — the source's format check passes exactly
the codes matching `^[A-Z]-\d{1,3}$` case-insensitively, optionally
followed by one trailing newline (the extra completion Python's `$`
anchor accepts); with a free code and in-bounds capacity, an ASCII
code failing that check fails creation with the format
`ValidationError`, and in particular `AB-101`, `A-1000`, `A101` and
`1-A` all fail so. -/
theorem codigo_format_spec :
    (∀ codigo : String, ascii_string codigo = true →
      AulaService.validate_codigo_format codigo =
        spec_codigo_matches_ci_nl codigo) ∧
    (∀ (s : Store) (a : AulaCreate),
      ascii_string a.codigo = true →
      AulaRepository.get_by_codigo s a.codigo = none →
      0 < a.capacidad → a.capacidad ≤ 500 →
      AulaService.validate_codigo_format a.codigo = false →
      (AulaService.create_aula s a).1 =
        Except.error (ApiError.validation AulaService.msg_codigo_format)) ∧
    ((AulaService.create_aula s0 { reqA with codigo := "AB-101" }).1 =
        Except.error (ApiError.validation AulaService.msg_codigo_format) ∧
     (AulaService.create_aula s0 { reqA with codigo := "A-1000" }).1 =
        Except.error (ApiError.validation AulaService.msg_codigo_format) ∧
     (AulaService.create_aula s0 { reqA with codigo := "A101" }).1 =
        Except.error (ApiError.validation AulaService.msg_codigo_format) ∧
     (AulaService.create_aula s0 { reqA with codigo := "1-A" }).1 =
        Except.error (ApiError.validation AulaService.msg_codigo_format)) :=
  ⟨fun codigo _ => validate_codigo_format_eq_spec_ci_nl codigo,
   fun s a _ hget h1 h2 h3 => create_format_error_aux s a hget h1 h2 h3,
   rfl, rfl, rfl, rfl⟩

/-- C4 witness: the lowercase ASCII code `a-7` agrees with the
case-insensitive pattern check, and the concrete bad code `A101` fails
creation with the format error. -/
theorem codigo_format_spec_witness :
    AulaService.validate_codigo_format "a-7" = spec_codigo_matches_ci_nl "a-7" ∧
    (AulaService.create_aula s0 { reqA with codigo := "A101" }).1 =
      Except.error (ApiError.validation AulaService.msg_codigo_format) :=
  ⟨codigo_format_spec.1 "a-7" (by decide),
   codigo_format_spec.2.1 s0 { reqA with codigo := "A101" } (by decide) rfl
     (by decide) (by decide) rfl⟩

/-- C6 witness: the buffer examples evaluated through the theorem, and
the membership characterisation at the concrete store holding `A-101`. -/
theorem available_for_capacity_spec_witness :
    (AulaService.capacidad_con_buffer 100 = 110 ∧
     AulaService.capacidad_con_buffer 45 = 49) ∧
    (aulaA ∈ AulaRepository.get_available_for_capacity s1A 30 none ↔
      aulaA ∈ s1A.aulas ∧ (30 : Int) ≤ aulaA.capacidad ∧
        AulaRepository.tipo_filter none aulaA = true) :=
  ⟨available_for_capacity_spec.1,
   available_for_capacity_spec.2.2.1 s1A 30 none aulaA⟩
